import Mathlib

/-!
Verification of the execution-state capture harness in `src/lib.rs`
(`swift-qsharp`). The harness wraps an external interpreter engine:
`ExecutionState` is the receiver populated by the engine's observer
callbacks, and `run_qs` is the orchestrator that builds a context,
evaluates the program against a fresh receiver, and converts engine
failures into the two fixed harness errors. The engine itself is an
external collaborator; its boundary (context construction and the
callback trace of one evaluation) is modelled from the spec.
-/

/-- Complex amplitude with float real and imaginary parts, mirroring the
engine's `Complex64` values handed to the receiver. -/
structure Complex64 where
  re : Float
  im : Float

/-- A basis-state amplitude record, mirroring `QubitState` in
`src/lib.rs` lines 69-73: a display identifier plus the two amplitude
components. -/
structure QubitState where
  id : String
  amplitude_real : Float
  amplitude_imaginary : Float

/-- The execution result captured during one run, mirroring
`ExecutionState` in `src/lib.rs` lines 75-79. -/
structure ExecutionState where
  states : List QubitState
  qubit_count : Nat
  messages : List String

/-- The harness error type `QsError` from `src/lib.rs` lines 10-14: a
single variant carrying only a human-readable text. -/
inductive QsError where
  | ErrorMessage (error_text : String)

/-- The observer error channel type (the engine crate's output error);
the reference receiver never constructs a value of it. -/
inductive ObserverError where
  | failure

/-- Binary digits of a natural number, most significant first, padded or
truncated to the given width. -/
def bitsOf : Nat → Nat → List Char
  | _, 0 => []
  | n, w + 1 => bitsOf (n / 2) w ++ [if n % 2 = 1 then '1' else '0']

/-- Modelled from the spec: the engine's basis-state display formatter
(the external `format_state_id` helper, not part of this repository).
Per the spec it renders a computational-basis index as a bitstring-style
display identifier formatted consistently with the declared qubit count;
here, a ket-bracketed bitstring padded to that count. -/
def format_state_id (basis : Nat) (qubit_count : Nat) : String :=
  "|" ++ String.mk (bitsOf basis qubit_count) ++ "⟩"

/-- `Default for ExecutionState` (`src/lib.rs` lines 81-89): empty
states, zero qubit count, empty messages. -/
def ExecutionState.default : ExecutionState :=
  { states := [], qubit_count := 0, messages := [] }

/-- The receiver's state callback (`src/lib.rs` lines 92-107): set the
qubit count and replace the stored states with one record per
(basis, amplitude) pair, then return Ok. -/
def ExecutionState.state (self : ExecutionState)
    (sts : List (Nat × Complex64)) (qubit_count : Nat) :
    Except ObserverError ExecutionState :=
  .ok { self with
          qubit_count := qubit_count
          states := sts.map (fun qa =>
            { id := format_state_id qa.1 qubit_count
              amplitude_real := qa.2.re
              amplitude_imaginary := qa.2.im }) }

/-- The receiver's message callback (`src/lib.rs` lines 109-112): push
the message text onto the messages sequence, then return Ok. -/
def ExecutionState.message (self : ExecutionState) (msg : String) :
    Except ObserverError ExecutionState :=
  .ok { self with messages := self.messages ++ [msg] }

/-- One observer callback the interpreter engine may issue during
evaluation. -/
inductive ObserverCall where
  | message (msg : String)
  | state (sts : List (Nat × Complex64)) (qubit_count : Nat)

/-- A runtime error returned by the engine's evaluation, optionally
carrying a stack trace; `run_qs` only prints these. -/
structure RuntimeError where
  stack_trace : Option String
  debug : String

/-- Modelled from the spec: the observable behavior of one successfully
constructed interpreter context — the observer callbacks it issues
during evaluation, in order, and the final outcome (a rendered value or
a list of runtime errors). The engine is an external collaborator. -/
structure EvalBehavior where
  calls : List ObserverCall
  outcome : Except (List RuntimeError) String

/-- Modelled from the spec: the interpreter engine boundary — for each
source text, context construction either fails with a list of
diagnostics or yields the evaluation behavior of the constructed
context. -/
abbrev Engine := String → Except (List String) EvalBehavior

/-- Dispatch one observer callback to the receiver. -/
def ExecutionState.applyCall (self : ExecutionState) :
    ObserverCall → Except ObserverError ExecutionState
  | .message m => self.message m
  | .state sts qc => self.state sts qc

/-- Thread a sequence of observer callbacks through the receiver,
stopping at the first observer error (the reference receiver never
produces one). -/
def ExecutionState.applyCalls (self : ExecutionState) :
    List ObserverCall → Except ObserverError ExecutionState
  | [] => .ok self
  | c :: cs =>
    match self.applyCall c with
    | .ok s2 => s2.applyCalls cs
    | .error e => .error e

/-- `run_qs` from `src/lib.rs` lines 38-67, parameterized by the
external engine: construct a context for the source; on failure return
the "context error"; otherwise evaluate against a fresh
`ExecutionState.default` receiver; on runtime failure return the
"execution error", else return the populated receiver. -/
def run_qs (engine : Engine) (source : String) :
    Except QsError ExecutionState :=
  match engine source with
  | .error _errs => .error (QsError.ErrorMessage "context error")
  | .ok beh =>
    match ExecutionState.default.applyCalls beh.calls with
    | .error _e => .error (QsError.ErrorMessage "execution error")
    | .ok recState =>
      match beh.outcome with
      | .ok _value => .ok recState
      | .error _errs => .error (QsError.ErrorMessage "execution error")

/-- Engine behavior of the Hello program from `test_run`
(`src/lib.rs` lines 115-131): one message callback, successful unit
outcome. -/
def helloEngine : Engine :=
  fun _ => .ok { calls := [.message "Hello"], outcome := .ok "()" }

/-- Engine behavior on syntactically invalid source: context
construction fails with a diagnostic list. -/
def invalidSourceEngine : Engine :=
  fun _ => .error ["error: expected item"]

/-- Engine behavior of a program whose entry point raises a runtime
error during evaluation. -/
def failingEngine : Engine :=
  fun _ => .ok { calls := [],
                 outcome := .error [{ stack_trace := some "at Main",
                                      debug := "program failure" }] }

/-- Engine behavior of a program that succeeds without invoking any
observer callback. -/
def silentEngine : Engine :=
  fun _ => .ok { calls := [], outcome := .ok "()" }

/-- Helper: the reference receiver never produces an observer error, so
threading any callback list through it succeeds. -/
theorem applyCalls_ok (cs : List ObserverCall) (s : ExecutionState) :
    ∃ s2, s.applyCalls cs = .ok s2 := by
  induction cs generalizing s with
  | nil => exact ⟨s, rfl⟩
  | cons c cs ih =>
    obtain ⟨s1, h1⟩ : ∃ s1, s.applyCall c = .ok s1 := by
      cases c <;> exact ⟨_, rfl⟩
    obtain ⟨s2, h2⟩ := ih s1
    exact ⟨s2, by simp [ExecutionState.applyCalls, h1, h2]⟩

/-- C1: for source text whose entry-point operation emits exactly the
one message "Hello" and allocates no qubits (the engine issues exactly
one message callback with "Hello" and evaluation succeeds), `run_qs`
returns a success result whose messages equal ["Hello"], whose qubit
count is 0, and whose states are empty. -/
theorem run_qs_hello_success (engine : Engine) (source : String)
    (v : String)
    (h : engine source =
      .ok { calls := [.message "Hello"], outcome := .ok v }) :
    run_qs engine source =
      .ok { states := [], qubit_count := 0, messages := ["Hello"] } := by
  simp [run_qs, h, ExecutionState.applyCalls, ExecutionState.applyCall,
    ExecutionState.message, ExecutionState.default]

/-- Witness for C1 at the concrete Hello engine behavior and source. -/
theorem run_qs_hello_success_witness :
    run_qs helloEngine "namespace MyQuantumApp Main Message Hello" =
      .ok { states := [], qubit_count := 0, messages := ["Hello"] } :=
  run_qs_hello_success helloEngine
    "namespace MyQuantumApp Main Message Hello" "()" rfl

/-- C2: the message callback always returns Ok and appends the text
verbatim at the end of the prior messages; consequently any sequence of
message callbacks yields exactly the emitted texts in emission order,
with nothing dropped, reordered, deduplicated, or mutated. -/
theorem record_message_appends_verbatim :
    (∀ (s : ExecutionState) (t : String),
        s.message t = .ok { s with messages := s.messages ++ [t] }) ∧
    (∀ (s : ExecutionState) (ts : List String),
        s.applyCalls (ts.map ObserverCall.message) =
          .ok { s with messages := s.messages ++ ts }) := by
  constructor
  · intro s t
    rfl
  · intro s ts
    induction ts generalizing s with
    | nil => simp [ExecutionState.applyCalls]
    | cons t ts ih =>
      simp [ExecutionState.applyCalls, ExecutionState.applyCall,
        ExecutionState.message, ih]

/-- C3: the state callback always returns Ok, sets the qubit count, and
replaces (does not append to) the states sequence, whatever the prior
state held, with exactly one record per input pair in input order, each
record's id being the display formatting of that pair's basis index
under the given qubit count. -/
theorem record_state_translates (s : ExecutionState)
    (pairs : List (Nat × Complex64)) (qc : Nat) :
    s.state pairs qc =
      .ok { states := pairs.map (fun qa =>
              { id := format_state_id qa.1 qc
                amplitude_real := qa.2.re
                amplitude_imaginary := qa.2.im })
            qubit_count := qc
            messages := s.messages } := rfl

/-- C4: the records store the amplitude components verbatim — mapping
the stored records back to (real, imaginary) pairs reproduces exactly
the input amplitudes' components, so the capture layer introduces no
rounding or normalization. -/
theorem record_state_amplitudes_verbatim (s : ExecutionState)
    (pairs : List (Nat × Complex64)) (qc : Nat) :
    (s.state pairs qc).map (fun s2 =>
        s2.states.map (fun r => (r.amplitude_real, r.amplitude_imaginary)))
      = .ok (pairs.map (fun qa => (qa.2.re, qa.2.im))) := by
  simp [ExecutionState.state, Except.map, List.map_map]

/-- C5: when context construction fails for the source text (the case
for syntactically invalid source), `run_qs` returns the Run Error with
text "context error" and no execution result. -/
theorem run_qs_context_error (engine : Engine) (source : String)
    (errs : List String) (h : engine source = .error errs) :
    run_qs engine source =
      .error (QsError.ErrorMessage "context error") := by
  simp [run_qs, h]

/-- Witness for C5 at a concrete failing engine and source. -/
theorem run_qs_context_error_witness :
    run_qs invalidSourceEngine "@@@" =
      .error (QsError.ErrorMessage "context error") :=
  run_qs_context_error invalidSourceEngine "@@@"
    ["error: expected item"] rfl

/-- C6: when evaluation of the constructed context raises runtime
errors, `run_qs` returns the Run Error with text "execution error". -/
theorem run_qs_execution_error (engine : Engine) (source : String)
    (beh : EvalBehavior) (errs : List RuntimeError)
    (h1 : engine source = .ok beh) (h2 : beh.outcome = .error errs) :
    run_qs engine source =
      .error (QsError.ErrorMessage "execution error") := by
  obtain ⟨s2, hs⟩ := applyCalls_ok beh.calls ExecutionState.default
  simp [run_qs, h1, hs, h2]

/-- Witness for C6 at a concrete engine whose evaluation fails. -/
theorem run_qs_execution_error_witness :
    run_qs failingEngine "operation Main fail" =
      .error (QsError.ErrorMessage "execution error") :=
  run_qs_execution_error failingEngine "operation Main fail"
    { calls := [],
      outcome := .error [{ stack_trace := some "at Main",
                           debug := "program failure" }] }
    [{ stack_trace := some "at Main", debug := "program failure" }]
    rfl rfl

/-- C7: every error `run_qs` returns is a `QsError.ErrorMessage` whose
text is one of the two fixed labels "context error" and
"execution error"; the structured diagnostics are not carried in the
returned value. -/
theorem run_qs_error_taxonomy (engine : Engine) (source : String)
    (e : QsError) (h : run_qs engine source = .error e) :
    e = QsError.ErrorMessage "context error" ∨
      e = QsError.ErrorMessage "execution error" := by
  unfold run_qs at h
  split at h
  · injection h with hv
    exact Or.inl hv.symm
  · split at h
    · injection h with hv
      exact Or.inr hv.symm
    · split at h
      · exact Except.noConfusion h
      · injection h with hv
        exact Or.inr hv.symm

/-- Witness for C7 at a concrete engine and the context-error label. -/
theorem run_qs_error_taxonomy_witness :
    QsError.ErrorMessage "context error" =
        QsError.ErrorMessage "context error" ∨
      QsError.ErrorMessage "context error" =
        QsError.ErrorMessage "execution error" :=
  run_qs_error_taxonomy invalidSourceEngine "@@@"
    (QsError.ErrorMessage "context error") rfl

/-- C8: two invocations of `run_qs` with identical source text and the
same engine behavior (no external randomness) yield execution results
with identical messages, identical qubit count, and states of the same
structural shape: the same ids in the same order. -/
theorem run_qs_deterministic (engine : Engine) (source : String)
    (r1 r2 : ExecutionState)
    (h1 : run_qs engine source = .ok r1)
    (h2 : run_qs engine source = .ok r2) :
    r1.messages = r2.messages ∧ r1.qubit_count = r2.qubit_count ∧
      r1.states.map QubitState.id = r2.states.map QubitState.id := by
  rw [h1] at h2
  injection h2 with h3
  subst h3
  exact ⟨rfl, rfl, rfl⟩

/-- Witness for C8 at the concrete Hello engine behavior. -/
theorem run_qs_deterministic_witness :
    (ExecutionState.mk [] 0 ["Hello"]).messages =
        (ExecutionState.mk [] 0 ["Hello"]).messages ∧
      (ExecutionState.mk [] 0 ["Hello"]).qubit_count =
        (ExecutionState.mk [] 0 ["Hello"]).qubit_count ∧
      (ExecutionState.mk [] 0 ["Hello"]).states.map QubitState.id =
        (ExecutionState.mk [] 0 ["Hello"]).states.map QubitState.id :=
  run_qs_deterministic helloEngine "main"
    (ExecutionState.mk [] 0 ["Hello"]) (ExecutionState.mk [] 0 ["Hello"])
    rfl rfl

/-- C9: each observer operation mutates only its own fields — the
message callback leaves the states and the qubit count unchanged, and
the state callback leaves the messages unchanged. -/
theorem observer_frame (s : ExecutionState) (t : String)
    (pairs : List (Nat × Complex64)) (qc : Nat) :
    (s.message t).map (fun s2 => (s2.states, s2.qubit_count)) =
        .ok (s.states, s.qubit_count) ∧
      (s.state pairs qc).map ExecutionState.messages = .ok s.messages :=
  ⟨rfl, rfl⟩

/-- C10: the fresh receiver each `run_qs` call evaluates against has
empty states, qubit count zero, and empty messages; when evaluation
succeeds with no observer callback issued, `run_qs` returns exactly
this empty execution result. -/
theorem run_qs_fresh_default (engine : Engine) (source : String)
    (v : String)
    (h : engine source = .ok { calls := [], outcome := .ok v }) :
    ExecutionState.default =
        { states := [], qubit_count := 0, messages := [] } ∧
      run_qs engine source =
        .ok { states := [], qubit_count := 0, messages := [] } := by
  constructor
  · rfl
  · simp [run_qs, h, ExecutionState.applyCalls, ExecutionState.default]

/-- Witness for C10 at a concrete engine issuing no callbacks. -/
theorem run_qs_fresh_default_witness :
    ExecutionState.default =
        { states := [], qubit_count := 0, messages := [] } ∧
      run_qs silentEngine "operation Main unit" =
        .ok { states := [], qubit_count := 0, messages := [] } :=
  run_qs_fresh_default silentEngine "operation Main unit" "()" rfl
